import Mathlib

/-!
Verification of the quota / rate-limiting core of the ai-notes-backend
repository.

Embedded source functions:
* `incrementCounter`, `getCounter`, `checkAndIncrementLimits`,
  `getQuotaStatus`, `recordActualTokenUsage`, `incrementRewardQuota`
  from backend/services/redisClient.js;
* `selectModel` (with module state `fallbackModeUntil`) from
  backend/services/modelRouter.js.

Modelling decisions:
* The Redis counter database is a pair of maps from key strings to an
  optional stored value and an optional TTL.  An expired key is modelled
  as an absent key (Redis reaps expired keys), so a read of an absent or
  expired key yields 0, exactly as `getCounter` does.
* JavaScript `Date` UTC components are a `Time` structure holding the
  numbers returned by getUTCFullYear / getUTCMonth / getUTCDate /
  getUTCHours / getUTCMinutes (getUTCMonth is 0-based; the model simply
  carries whatever number JS would produce).  Template literals become
  `Nat.repr` concatenations, which is the decimal rendering JS applies
  to these numbers.
* Environment-derived limits use the source defaults
  (RATE_LIMIT_RPD=50, RATE_LIMIT_TPD=20000, FALLBACK_THRESHOLD=70).
* JavaScript floating-point fractions in `selectModel` are modelled as
  exact rationals.
* A second, fallible store model (`EStore`, suffix `E`) embeds the same
  admission code over a store whose individual keys may error, to settle
  the error-propagation behaviour of `checkAndIncrementLimits`: the
  source function has no try/catch, so a rejected promise propagates to
  its caller (`routeModelRequest`), which catches it.
-/

namespace AiNotes

/-- UTC wall-clock components as returned by the JS `Date` getters used in
redisClient.js (`getUTCMonth` is 0-based). -/
structure Time where
  year : Nat
  month : Nat
  day : Nat
  hour : Nat
  minute : Nat
deriving DecidableEq

/-- The minute bucket string of checkAndIncrementLimits. -/
def minuteBucket (t : Time) : String :=
  Nat.repr t.year ++ "-" ++ Nat.repr t.month ++ "-" ++ Nat.repr t.day ++ "-" ++
    Nat.repr t.hour ++ "-" ++ Nat.repr t.minute

/-- The day bucket string of checkAndIncrementLimits. -/
def dayBucket (t : Time) : String :=
  Nat.repr t.year ++ "-" ++ Nat.repr t.month ++ "-" ++ Nat.repr t.day

/-- The Redis counter database: per key an optional stored counter value
and an optional TTL (in seconds).  Expired keys are modelled as absent. -/
structure Store where
  val : String → Option Nat
  ttl : String → Option Nat

/-- The store with no keys. -/
def Store.empty : Store := ⟨fun _ => none, fun _ => none⟩

/-- `getCounter` from redisClient.js: `redis.get`, 0 when absent/expired. -/
def getCounter (s : Store) (key : String) : Nat :=
  (s.val key).getD 0

/-- Overwrite the stored value of one key. -/
def Store.setVal (s : Store) (key : String) (v : Nat) : Store :=
  { s with val := fun k => if k = key then some v else s.val k }

/-- Overwrite the TTL of one key. -/
def Store.setTtl (s : Store) (key : String) (seconds : Nat) : Store :=
  { s with ttl := fun k => if k = key then some seconds else s.ttl k }

/-- `redis.expire key seconds`: sets the TTL of an existing key and is a
no-op on an absent key. -/
def expire (s : Store) (key : String) (seconds : Nat) : Store :=
  if (s.val key).isSome then s.setTtl key seconds else s

/-- `incrementCounter` from redisClient.js: `redis.incr` (an absent key
counts as 0) followed by `redis.expire` exactly when the value returned
by the increment is 1. -/
def incrementCounter (s : Store) (key : String) (ttl : Nat) : Store × Nat :=
  let current := getCounter s key + 1
  let s1 := s.setVal key current
  (if current = 1 then expire s1 key ttl else s1, current)

/-- `redis.incrby key amount` (creates the key at `amount` when absent,
leaves the TTL untouched). -/
def incrby (s : Store) (key : String) (amount : Nat) : Store :=
  s.setVal key (getCounter s key + amount)

/-- The `globalLimits` literal of checkAndIncrementLimits
(Groq API limits: rpm 30, rpd 14400, tpm 6000, tpd 500000). -/
structure GlobalLimits where
  rpm : Nat
  rpd : Nat
  tpm : Nat
  tpd : Nat
deriving DecidableEq

def globalLimits : GlobalLimits := ⟨30, 14400, 6000, 500000⟩

/-- The `userLimits` literal of checkAndIncrementLimits with the source
defaults RATE_LIMIT_RPD=50, RATE_LIMIT_TPD=20000. -/
structure UserLimits where
  rpd : Nat
  tpd : Nat
deriving DecidableEq

def userLimits : UserLimits := ⟨50, 20000⟩

/-- Key `global:rpm:(minute)`. -/
def globalRpmKey (t : Time) : String := "global:rpm:" ++ minuteBucket t

/-- Key `global:rpd:(day)`. -/
def globalRpdKey (t : Time) : String := "global:rpd:" ++ dayBucket t

/-- Key `global:tpm:(minute)`. -/
def globalTpmKey (t : Time) : String := "global:tpm:" ++ minuteBucket t

/-- Key `global:tpd:(day)`. -/
def globalTpdKey (t : Time) : String := "global:tpd:" ++ dayBucket t

/-- Key `user:rpd:(userId):(day)`. -/
def userRpdKey (userId : String) (t : Time) : String :=
  "user:rpd:" ++ userId ++ ":" ++ dayBucket t

/-- Key `user:tpd:(userId):(day)`. -/
def userTpdKey (userId : String) (t : Time) : String :=
  "user:tpd:" ++ userId ++ ":" ++ dayBucket t

/-- The six-field usage object returned by the ledger (global rpm, rpd,
tpm, tpd plus the per-user rpd and tpd). -/
structure QuotaUsage where
  rpm : Nat
  rpd : Nat
  tpm : Nat
  tpd : Nat
  userRpd : Nat
  userTpd : Nat
deriving DecidableEq

/-- The six-field limits object returned by the ledger. -/
structure QuotaLimits where
  rpm : Nat
  rpd : Nat
  tpm : Nat
  tpd : Nat
  userRpd : Nat
  userTpd : Nat
deriving DecidableEq

/-- The limits object `{...globalLimits, userRpd, userTpd}`. -/
def checkLimits : QuotaLimits :=
  ⟨globalLimits.rpm, globalLimits.rpd, globalLimits.tpm, globalLimits.tpd,
    userLimits.rpd, userLimits.tpd⟩

/-- The `{allowed, usage, limits, reason?}` object returned by
checkAndIncrementLimits. -/
structure CheckResult where
  allowed : Bool
  usage : QuotaUsage
  limits : QuotaLimits
  reason : Option String
deriving DecidableEq

/-- `checkAndIncrementLimits` from redisClient.js: read the six counters,
test the limit dimensions in source order with early return, and on
success increment only the three request counters. -/
def checkAndIncrementLimits (s : Store) (userId : String) (tokensEstimated : Nat)
    (t : Time) : CheckResult × Store :=
  let usage : QuotaUsage :=
    ⟨getCounter s (globalRpmKey t), getCounter s (globalRpdKey t),
      getCounter s (globalTpmKey t), getCounter s (globalTpdKey t),
      getCounter s (userRpdKey userId t), getCounter s (userTpdKey userId t)⟩
  let limits := checkLimits
  if usage.rpm ≥ globalLimits.rpm then
    (⟨false, usage, limits, some "Global requests per minute limit exceeded (Groq API)"⟩, s)
  else if usage.rpd ≥ globalLimits.rpd then
    (⟨false, usage, limits, some "Global requests per day limit exceeded (Groq API)"⟩, s)
  else if usage.tpm + tokensEstimated > globalLimits.tpm then
    (⟨false, usage, limits, some "Global tokens per minute limit exceeded (Groq API)"⟩, s)
  else if usage.tpd + tokensEstimated > globalLimits.tpd then
    (⟨false, usage, limits, some "Global tokens per day limit exceeded (Groq API - 500K/day)"⟩, s)
  else if usage.userRpd ≥ userLimits.rpd then
    (⟨false, usage, limits, some "User requests per day limit exceeded (Your App Quota)"⟩, s)
  else if usage.userTpd + tokensEstimated > userLimits.tpd then
    (⟨false, usage, limits, some "User tokens per day limit exceeded (Your App Quota)"⟩, s)
  else
    let s1 := (incrementCounter s (globalRpmKey t) 60).1
    let s2 := (incrementCounter s1 (globalRpdKey t) 86400).1
    let s3 := (incrementCounter s2 (userRpdKey userId t) 86400).1
    (⟨true,
      ⟨usage.rpm + 1, usage.rpd + 1, usage.tpm, usage.tpd, usage.userRpd + 1, usage.userTpd⟩,
      limits, none⟩, s3)

/-- `getQuotaStatus` from redisClient.js: read the six counters, no
side effects. -/
def getQuotaStatus (s : Store) (userId : String) (t : Time) : QuotaUsage × QuotaLimits :=
  (⟨getCounter s (globalRpmKey t), getCounter s (globalRpdKey t),
      getCounter s (globalTpmKey t), getCounter s (globalTpdKey t),
      getCounter s (userRpdKey userId t), getCounter s (userTpdKey userId t)⟩,
    checkLimits)

/-- The `{ success }` object of recordActualTokenUsage. -/
structure RecordResult where
  success : Bool
deriving DecidableEq

/-- `recordActualTokenUsage` from redisClient.js: incrby the three token
counters by the actual amount and (re)apply their TTLs.  The embedded
body cannot fail, so the catch branch returning success:false is dead
here and the result is always success:true. -/
def recordActualTokenUsage (s : Store) (userId : String) (actualTokensUsed : Nat)
    (t : Time) : RecordResult × Store :=
  let s1 := incrby s (globalTpmKey t) actualTokensUsed
  let s2 := incrby s1 (globalTpdKey t) actualTokensUsed
  let s3 := incrby s2 (userTpdKey userId t) actualTokensUsed
  let s4 := expire s3 (globalTpmKey t) 60
  let s5 := expire s4 (globalTpdKey t) 86400
  let s6 := expire s5 (userTpdKey userId t) 86400
  (⟨true⟩, s6)

/-- Reward key `tpd:(userId):(day)` of incrementRewardQuota. -/
def rewardTpdKey (userId : String) (t : Time) : String :=
  "tpd:" ++ userId ++ ":" ++ dayBucket t

/-- Reward key `rpd:(userId):(day)` of incrementRewardQuota. -/
def rewardRpdKey (userId : String) (t : Time) : String :=
  "rpd:" ++ userId ++ ":" ++ dayBucket t

/-- The four usage/limit figures incrementRewardQuota reports. -/
structure RewardFigures where
  rpm : Nat
  rpd : Nat
  tpm : Nat
  tpd : Nat
deriving DecidableEq

/-- The `{ success, usage?, limits? }` object of incrementRewardQuota
(the error case carries no usage/limits). -/
structure RewardResult where
  success : Bool
  usage : Option RewardFigures
  limits : Option RewardFigures
deriving DecidableEq

/-- `incrementRewardQuota` from redisClient.js: write `tpd:(u):(day)` or
`rpd:(u):(day)` depending on rewardType (anything else is an error), then
report usage read from `rpm:/rpd:/tpm:/tpd:(u):(bucket)` keys and the
env-default limits literal of that function. -/
def incrementRewardQuota (s : Store) (userId : String) (_module rewardType : String)
    (amount : Nat) (t : Time) : RewardResult × Store :=
  let key : Option String :=
    if rewardType = "tokens" then some (rewardTpdKey userId t)
    else if rewardType = "requests" then some (rewardRpdKey userId t)
    else none
  match key with
  | none => (⟨false, none, none⟩, s)
  | some k =>
    let s1 := incrby s k amount
    (⟨true,
      some ⟨getCounter s1 ("rpm:" ++ userId ++ ":" ++ minuteBucket t),
        getCounter s1 ("rpd:" ++ userId ++ ":" ++ dayBucket t),
        getCounter s1 ("tpm:" ++ userId ++ ":" ++ minuteBucket t),
        getCounter s1 ("tpd:" ++ userId ++ ":" ++ dayBucket t)⟩,
      some ⟨30, 10, 6000, 20000⟩⟩, s1)

/-- `MODELS.default` from modelRouter.js. -/
def MODELS_default : String := "llama-3.1-8b-instant"

/-- `MODELS.fallback` from modelRouter.js. -/
def MODELS_fallback : String := "compound-mini"

/-- `FALLBACK_THRESHOLD` with the default env value 70. -/
def FALLBACK_THRESHOLD : ℚ := 70 / 100

/-- `FALLBACK_DURATION_MS`: five minutes in milliseconds. -/
def FALLBACK_DURATION_MS : Nat := 5 * 60 * 1000

/-- The JS truthiness test `fallbackModeUntil && now < fallbackModeUntil`
(null is falsy; a 0 timestamp is also falsy in JS, but `now < 0` never
holds for the unsigned clock, so the two agree). -/
def fallbackHoldActive (fallbackModeUntil : Option Nat) (now : Nat) : Bool :=
  match fallbackModeUntil with
  | some d => decide (now < d)
  | none => false

/-- `selectModel` from modelRouter.js.  `fallbackModeUntil` is the module
variable (null or a ms timestamp), `now` is `Date.now()`; the function
returns the chosen model name together with the updated module state. -/
def selectModel (s : Store) (fallbackModeUntil : Option Nat) (userId : String)
    (t : Time) (now : Nat) (preferredModel : String) : String × Option Nat :=
  let usage := (getQuotaStatus s userId t).1
  let limits := (getQuotaStatus s userId t).2
  if fallbackHoldActive fallbackModeUntil now then
    (MODELS_fallback, fallbackModeUntil)
  else
    let tpdPercent : ℚ := (usage.tpd : ℚ) / (limits.tpd : ℚ)
    let rpmPercent : ℚ := (usage.rpm : ℚ) / (limits.rpm : ℚ)
    if tpdPercent > FALLBACK_THRESHOLD ∨ rpmPercent > FALLBACK_THRESHOLD then
      (MODELS_fallback, some (now + FALLBACK_DURATION_MS))
    else if tpdPercent < 1 / 2 ∧ rpmPercent < 1 / 2 then
      ((if preferredModel = "" then MODELS_default else preferredModel), none)
    else
      ((if preferredModel = "" then MODELS_default else preferredModel), fallbackModeUntil)

/-- The six limit dimensions of the quota ledger. -/
inductive LimitDimension where
  | globalRpm
  | globalRpd
  | globalTpm
  | globalTpd
  | userRpd
  | userTpd
deriving DecidableEq

/-- Modelled from the spec: the fixed precedence list of limit dimensions
(global-rpm, global-rpd, global-tpm, global-tpd, identity-rpd,
identity-tpd, the token dimensions tested as current + estimate > limit),
scanned in order for the first failing dimension.  This is the spec-side
description that `checkAndIncrementLimits` is compared against. -/
def specFirstFailing (s : Store) (userId : String) (tokensEstimated : Nat)
    (t : Time) : Option LimitDimension :=
  if getCounter s (globalRpmKey t) ≥ globalLimits.rpm then some .globalRpm
  else if getCounter s (globalRpdKey t) ≥ globalLimits.rpd then some .globalRpd
  else if getCounter s (globalTpmKey t) + tokensEstimated > globalLimits.tpm then some .globalTpm
  else if getCounter s (globalTpdKey t) + tokensEstimated > globalLimits.tpd then some .globalTpd
  else if getCounter s (userRpdKey userId t) ≥ userLimits.rpd then some .userRpd
  else if getCounter s (userTpdKey userId t) + tokensEstimated > userLimits.tpd then some .userTpd
  else none

/-- The rejection reason string the source attaches to each dimension. -/
def dimensionReason : LimitDimension → String
  | .globalRpm => "Global requests per minute limit exceeded (Groq API)"
  | .globalRpd => "Global requests per day limit exceeded (Groq API)"
  | .globalTpm => "Global tokens per minute limit exceeded (Groq API)"
  | .globalTpd => "Global tokens per day limit exceeded (Groq API - 500K/day)"
  | .userRpd => "User requests per day limit exceeded (Your App Quota)"
  | .userTpd => "User tokens per day limit exceeded (Your App Quota)"

/-- Run a sequence of sequential `admit` calls (userId, estimate, time),
keeping only the final store. -/
def admitSeq (s : Store) (ops : List (String × Nat × Time)) : Store :=
  match ops with
  | [] => s
  | op :: rest => admitSeq (checkAndIncrementLimits s op.1 op.2.1 op.2.2).2 rest

/-- Run a sequence of sequential `admit` calls and collect each call's
result object. -/
def admitResults (s : Store) (ops : List (String × Nat × Time)) : List CheckResult :=
  match ops with
  | [] => []
  | op :: rest =>
    (checkAndIncrementLimits s op.1 op.2.1 op.2.2).1 ::
      admitResults (checkAndIncrementLimits s op.1 op.2.1 op.2.2).2 rest

/-- Run a sequence of `incrementRewardQuota` calls
(userId, module, rewardType, amount, time). -/
def rewardSeq (s : Store) (ops : List (String × String × String × Nat × Time)) : Store :=
  match ops with
  | [] => s
  | op :: rest =>
    rewardSeq (incrementRewardQuota s op.1 op.2.1 op.2.2.1 op.2.2.2.1 op.2.2.2.2).2 rest

/-- Two stores agree on every key of the quota namespaces `global:` and
`user:` (the only keys the ledger and the status reader ever touch). -/
def quotaAgree (s1 s2 : Store) : Prop :=
  ∀ rest : String,
    s1.val ("global:" ++ rest) = s2.val ("global:" ++ rest) ∧
    s1.val ("user:" ++ rest) = s2.val ("user:" ++ rest)

/-- The request-counter safety invariant: every global rpm counter is at
most the global rpm limit, every global rpd counter at most the global
rpd limit, and every per-user rpd counter at most the per-user rpd
limit. -/
def ReqInv (s : Store) : Prop :=
  (∀ m : String, getCounter s ("global:rpm:" ++ m) ≤ globalLimits.rpm) ∧
  (∀ d : String, getCounter s ("global:rpd:" ++ d) ≤ globalLimits.rpd) ∧
  (∀ rest : String, getCounter s ("user:rpd:" ++ rest) ≤ userLimits.rpd)

/-- Number of `:` characters in a string (a key with n colons splits into
n+1 colon-separated segments). -/
def countColons (s : String) : Nat := s.data.count ':'

/-! ## Fallible store model

`EStore` extends the counter store with a set of keys on which every
Redis operation errors (a rejected promise).  The `E`-suffixed
operations mirror the source exactly: `checkAndIncrementLimits` contains
no try/catch, so the first rejected await aborts the whole call with an
error; `routeModelRequest` wraps the call in try/catch and turns an
error into `{ success: false }`. -/

/-- A counter store in which operations on `failing` keys error. -/
structure EStore where
  val : String → Option Nat
  ttl : String → Option Nat
  failing : String → Bool

/-- `redis.get` against a possibly-failing store. -/
def getCounterE (s : EStore) (key : String) : Except String Nat :=
  if s.failing key then Except.error "StoreUnavailable"
  else Except.ok ((s.val key).getD 0)

/-- `redis.incr` against a possibly-failing store. -/
def incrE (s : EStore) (key : String) : Except String (EStore × Nat) :=
  if s.failing key then Except.error "StoreUnavailable"
  else
    let v := (s.val key).getD 0 + 1
    Except.ok ({ s with val := fun k => if k = key then some v else s.val k }, v)

/-- `redis.expire` against a possibly-failing store. -/
def expireE (s : EStore) (key : String) (seconds : Nat) : Except String EStore :=
  if s.failing key then Except.error "StoreUnavailable"
  else if (s.val key).isSome then
    Except.ok { s with ttl := fun k => if k = key then some seconds else s.ttl k }
  else Except.ok s

/-- `incrementCounter` against a possibly-failing store. -/
def incrementCounterE (s : EStore) (key : String) (ttl : Nat) :
    Except String (EStore × Nat) := do
  let (s1, current) ← incrE s key
  if current = 1 then
    let s2 ← expireE s1 key ttl
    return (s2, current)
  else
    return (s1, current)

/-- `checkAndIncrementLimits` against a possibly-failing store: the six
awaited reads in source order, then the checks, then the three request
increments.  There is no try/catch in the source function, so the first
error aborts the call. -/
def checkAndIncrementLimitsE (s : EStore) (userId : String) (tokensEstimated : Nat)
    (t : Time) : Except String (CheckResult × EStore) := do
  let rpm ← getCounterE s (globalRpmKey t)
  let rpd ← getCounterE s (globalRpdKey t)
  let tpm ← getCounterE s (globalTpmKey t)
  let tpd ← getCounterE s (globalTpdKey t)
  let uRpd ← getCounterE s (userRpdKey userId t)
  let uTpd ← getCounterE s (userTpdKey userId t)
  let usage : QuotaUsage := ⟨rpm, rpd, tpm, tpd, uRpd, uTpd⟩
  let limits := checkLimits
  if usage.rpm ≥ globalLimits.rpm then
    return (⟨false, usage, limits, some "Global requests per minute limit exceeded (Groq API)"⟩, s)
  else if usage.rpd ≥ globalLimits.rpd then
    return (⟨false, usage, limits, some "Global requests per day limit exceeded (Groq API)"⟩, s)
  else if usage.tpm + tokensEstimated > globalLimits.tpm then
    return (⟨false, usage, limits, some "Global tokens per minute limit exceeded (Groq API)"⟩, s)
  else if usage.tpd + tokensEstimated > globalLimits.tpd then
    return (⟨false, usage, limits, some "Global tokens per day limit exceeded (Groq API - 500K/day)"⟩, s)
  else if usage.userRpd ≥ userLimits.rpd then
    return (⟨false, usage, limits, some "User requests per day limit exceeded (Your App Quota)"⟩, s)
  else if usage.userTpd + tokensEstimated > userLimits.tpd then
    return (⟨false, usage, limits, some "User tokens per day limit exceeded (Your App Quota)"⟩, s)
  else
    let (s1, _) ← incrementCounterE s (globalRpmKey t) 60
    let (s2, _) ← incrementCounterE s1 (globalRpdKey t) 86400
    let (s3, _) ← incrementCounterE s2 (userRpdKey userId t) 86400
    return (⟨true,
      ⟨usage.rpm + 1, usage.rpd + 1, usage.tpm, usage.tpd, usage.userRpd + 1, usage.userTpd⟩,
      limits, none⟩, s3)

/-- Whether a fallible admission call came back at all (vs erroring). -/
def admissionReturnedOk (r : Except String (CheckResult × EStore)) : Bool :=
  match r with
  | Except.ok _ => true
  | Except.error _ => false

/-- The admission outcome seen past `routeModelRequest`'s try/catch: an
error from the ledger is caught and becomes `success: false`; otherwise
the request proceeds only when `allowed` is true. -/
def routeAdmissionOutcome (r : Except String (CheckResult × EStore)) : Bool :=
  match r with
  | Except.ok (res, _) => res.allowed
  | Except.error _ => false

/-- A store whose every key errors (Redis down). -/
def downEStore : EStore := ⟨fun _ => none, fun _ => none, fun _ => true⟩

/-! ## Concrete scenario inputs -/

/-- A concrete time: 2024-01-01 10:30 UTC (getUTCMonth returns 0 for
January). -/
def t0 : Time := ⟨2024, 0, 1, 10, 30⟩

/-- Scenario store for C1: identity u2 at identity-tpd usage 19950. -/
def c1Store : Store :=
  Store.setVal Store.empty (userTpdKey "u2" t0) 19950

/-- Scenario store for C5: global tpd usage 360001 (72.0002% of 500000). -/
def c5Store : Store :=
  Store.setVal Store.empty (globalTpdKey t0) 360001

/-- Counterexample store for C4: global tpd usage 300000 (60% of 500000,
above the recovery threshold, below the trip threshold). -/
def c4Store : Store :=
  Store.setVal Store.empty (globalTpdKey t0) 300000

/-! ## String lemmas for key disjointness -/

/-- Two appends with prefixes that differ at some common index are
different strings, whatever the suffixes. -/
theorem append_ne_append (p q x y : String) (i : Nat)
    (hp : i < p.data.length) (hq : i < q.data.length)
    (hne : p.data[i]? ≠ q.data[i]?) : p ++ x ≠ q ++ y := by
  intro h
  apply hne
  have hd := congrArg String.data h
  rw [String.data_append, String.data_append] at hd
  have h1 : (p.data ++ x.data)[i]? = p.data[i]? := by
    rw [List.getElem?_append, if_pos hp]
  have h2 : (q.data ++ y.data)[i]? = q.data[i]? := by
    rw [List.getElem?_append, if_pos hq]
  rw [← h1, ← h2, hd]

/-- `user:rpd:(u):(day)` re-associated onto its literal prefix. -/
theorem userRpdKey_eq (u : String) (t : Time) :
    userRpdKey u t = "user:rpd:" ++ (u ++ (":" ++ dayBucket t)) := by
  rw [userRpdKey, String.append_assoc, String.append_assoc]

/-- `user:tpd:(u):(day)` re-associated onto its literal prefix. -/
theorem userTpdKey_eq (u : String) (t : Time) :
    userTpdKey u t = "user:tpd:" ++ (u ++ (":" ++ dayBucket t)) := by
  rw [userTpdKey, String.append_assoc, String.append_assoc]

/-- `tpd:(u):(day)` re-associated onto its literal prefix. -/
theorem rewardTpdKey_eq (u : String) (t : Time) :
    rewardTpdKey u t = "tpd:" ++ (u ++ (":" ++ dayBucket t)) := by
  rw [rewardTpdKey, String.append_assoc, String.append_assoc]

/-- `rpd:(u):(day)` re-associated onto its literal prefix. -/
theorem rewardRpdKey_eq (u : String) (t : Time) :
    rewardRpdKey u t = "rpd:" ++ (u ++ (":" ++ dayBucket t)) := by
  rw [rewardRpdKey, String.append_assoc, String.append_assoc]

/-! ## Store update lemmas -/

theorem val_setVal (s : Store) (key : String) (v : Nat) (k : String) :
    (s.setVal key v).val k = if k = key then some v else s.val k := rfl

theorem ttl_setVal (s : Store) (key : String) (v : Nat) :
    (s.setVal key v).ttl = s.ttl := rfl

theorem val_setTtl (s : Store) (key : String) (sec : Nat) :
    (s.setTtl key sec).val = s.val := rfl

theorem ttl_setTtl (s : Store) (key : String) (sec : Nat) (k : String) :
    (s.setTtl key sec).ttl k = if k = key then some sec else s.ttl k := rfl

theorem val_expire (s : Store) (key : String) (sec : Nat) :
    (expire s key sec).val = s.val := by
  unfold expire; split <;> rfl

theorem ttl_expire_other (s : Store) (key : String) (sec : Nat) (k : String)
    (h : k ≠ key) : (expire s key sec).ttl k = s.ttl k := by
  unfold expire; split
  · rw [ttl_setTtl]; simp [h]
  · rfl

theorem val_incrementCounter_self (s : Store) (key : String) (ttl : Nat) :
    ((incrementCounter s key ttl).1).val key = some (getCounter s key + 1) := by
  simp only [incrementCounter]
  split
  · rw [val_expire, val_setVal]; simp
  · rw [val_setVal]; simp

theorem val_incrementCounter_other (s : Store) (key : String) (ttl : Nat)
    (k : String) (h : k ≠ key) :
    ((incrementCounter s key ttl).1).val k = s.val k := by
  simp only [incrementCounter]
  split
  · rw [val_expire, val_setVal]; simp [h]
  · rw [val_setVal]; simp [h]

theorem getCounter_incrementCounter_self (s : Store) (key : String) (ttl : Nat) :
    getCounter ((incrementCounter s key ttl).1) key = getCounter s key + 1 := by
  unfold getCounter; rw [val_incrementCounter_self]; rfl

theorem getCounter_incrementCounter_other (s : Store) (key : String) (ttl : Nat)
    (k : String) (h : k ≠ key) :
    getCounter ((incrementCounter s key ttl).1) k = getCounter s k := by
  unfold getCounter; rw [val_incrementCounter_other s key ttl k h]

theorem ttl_incrementCounter_other (s : Store) (key : String) (ttl : Nat)
    (k : String) (h : k ≠ key) :
    ((incrementCounter s key ttl).1).ttl k = s.ttl k := by
  simp only [incrementCounter]
  split
  · rw [ttl_expire_other _ _ _ _ h, ttl_setVal]
  · rw [ttl_setVal]

theorem val_incrby_self (s : Store) (key : String) (n : Nat) :
    (incrby s key n).val key = some (getCounter s key + n) := by
  unfold incrby; rw [val_setVal]; simp

theorem val_incrby_other (s : Store) (key : String) (n : Nat) (k : String)
    (h : k ≠ key) : (incrby s key n).val k = s.val k := by
  unfold incrby; rw [val_setVal]; simp [h]

theorem getCounter_incrby_self (s : Store) (key : String) (n : Nat) :
    getCounter (incrby s key n) key = getCounter s key + n := by
  unfold getCounter; rw [val_incrby_self]; rfl

theorem getCounter_incrby_other (s : Store) (key : String) (n : Nat) (k : String)
    (h : k ≠ key) : getCounter (incrby s key n) k = getCounter s k := by
  unfold getCounter; rw [val_incrby_other s key n k h]

theorem ttl_incrby (s : Store) (key : String) (n : Nat) :
    (incrby s key n).ttl = s.ttl := rfl

/-! ## Ledger branch lemmas -/

/-- On a rejected admission the store is returned unchanged. -/
theorem check_rejected_store (s : Store) (u : String) (est : Nat) (t : Time)
    (h : (checkAndIncrementLimits s u est t).1.allowed = false) :
    (checkAndIncrementLimits s u est t).2 = s := by
  simp only [checkAndIncrementLimits] at h ⊢
  split_ifs at h ⊢ <;> simp_all

/-- On an allowed admission every request-count check passed strictly and
the returned store is the three-fold request-counter increment. -/
theorem check_allowed_store (s : Store) (u : String) (est : Nat) (t : Time)
    (h : (checkAndIncrementLimits s u est t).1.allowed = true) :
    getCounter s (globalRpmKey t) < globalLimits.rpm ∧
    getCounter s (globalRpdKey t) < globalLimits.rpd ∧
    getCounter s (userRpdKey u t) < userLimits.rpd ∧
    (checkAndIncrementLimits s u est t).2 =
      (incrementCounter
        ((incrementCounter ((incrementCounter s (globalRpmKey t) 60).1)
          (globalRpdKey t) 86400).1)
        (userRpdKey u t) 86400).1 := by
  simp only [checkAndIncrementLimits] at h ⊢
  split_ifs at h ⊢
  simp_all

/-! ## Pairwise disjointness of the six quota keys -/

theorem gRpm_ne_gRpd (t1 t2 : Time) : globalRpmKey t1 ≠ globalRpdKey t2 := by
  rw [globalRpmKey, globalRpdKey]
  exact append_ne_append _ _ _ _ 9 (by decide) (by decide) (by decide)

theorem gRpm_ne_gTpm (t1 t2 : Time) : globalRpmKey t1 ≠ globalTpmKey t2 := by
  rw [globalRpmKey, globalTpmKey]
  exact append_ne_append _ _ _ _ 7 (by decide) (by decide) (by decide)

theorem gRpm_ne_gTpd (t1 t2 : Time) : globalRpmKey t1 ≠ globalTpdKey t2 := by
  rw [globalRpmKey, globalTpdKey]
  exact append_ne_append _ _ _ _ 7 (by decide) (by decide) (by decide)

theorem gRpm_ne_uRpd (t1 : Time) (u : String) (t2 : Time) :
    globalRpmKey t1 ≠ userRpdKey u t2 := by
  rw [globalRpmKey, userRpdKey_eq]
  exact append_ne_append _ _ _ _ 0 (by decide) (by decide) (by decide)

theorem gRpm_ne_uTpd (t1 : Time) (u : String) (t2 : Time) :
    globalRpmKey t1 ≠ userTpdKey u t2 := by
  rw [globalRpmKey, userTpdKey_eq]
  exact append_ne_append _ _ _ _ 0 (by decide) (by decide) (by decide)

theorem gRpd_ne_gTpm (t1 t2 : Time) : globalRpdKey t1 ≠ globalTpmKey t2 := by
  rw [globalRpdKey, globalTpmKey]
  exact append_ne_append _ _ _ _ 7 (by decide) (by decide) (by decide)

theorem gRpd_ne_gTpd (t1 t2 : Time) : globalRpdKey t1 ≠ globalTpdKey t2 := by
  rw [globalRpdKey, globalTpdKey]
  exact append_ne_append _ _ _ _ 7 (by decide) (by decide) (by decide)

theorem gRpd_ne_uRpd (t1 : Time) (u : String) (t2 : Time) :
    globalRpdKey t1 ≠ userRpdKey u t2 := by
  rw [globalRpdKey, userRpdKey_eq]
  exact append_ne_append _ _ _ _ 0 (by decide) (by decide) (by decide)

theorem gRpd_ne_uTpd (t1 : Time) (u : String) (t2 : Time) :
    globalRpdKey t1 ≠ userTpdKey u t2 := by
  rw [globalRpdKey, userTpdKey_eq]
  exact append_ne_append _ _ _ _ 0 (by decide) (by decide) (by decide)

theorem gTpm_ne_gTpd (t1 t2 : Time) : globalTpmKey t1 ≠ globalTpdKey t2 := by
  rw [globalTpmKey, globalTpdKey]
  exact append_ne_append _ _ _ _ 9 (by decide) (by decide) (by decide)

theorem gTpm_ne_uRpd (t1 : Time) (u : String) (t2 : Time) :
    globalTpmKey t1 ≠ userRpdKey u t2 := by
  rw [globalTpmKey, userRpdKey_eq]
  exact append_ne_append _ _ _ _ 0 (by decide) (by decide) (by decide)

theorem gTpm_ne_uTpd (t1 : Time) (u : String) (t2 : Time) :
    globalTpmKey t1 ≠ userTpdKey u t2 := by
  rw [globalTpmKey, userTpdKey_eq]
  exact append_ne_append _ _ _ _ 0 (by decide) (by decide) (by decide)

theorem gTpd_ne_uRpd (t1 : Time) (u : String) (t2 : Time) :
    globalTpdKey t1 ≠ userRpdKey u t2 := by
  rw [globalTpdKey, userRpdKey_eq]
  exact append_ne_append _ _ _ _ 0 (by decide) (by decide) (by decide)

theorem gTpd_ne_uTpd (t1 : Time) (u : String) (t2 : Time) :
    globalTpdKey t1 ≠ userTpdKey u t2 := by
  rw [globalTpdKey, userTpdKey_eq]
  exact append_ne_append _ _ _ _ 0 (by decide) (by decide) (by decide)

theorem uRpd_ne_uTpd (u1 : String) (t1 : Time) (u2 : String) (t2 : Time) :
    userRpdKey u1 t1 ≠ userTpdKey u2 t2 := by
  rw [userRpdKey_eq, userTpdKey_eq]
  exact append_ne_append _ _ _ _ 5 (by decide) (by decide) (by decide)

/-! ## Claim C1 -/

/-- C1: `checkAndIncrementLimits` evaluates the six limit dimensions in
the fixed order global-rpm, global-rpd, global-tpm, global-tpd,
identity-rpd, identity-tpd (token dimensions tested as
current + estimate > limit): its rejection behaviour coincides with the
spec-side ordered scan `specFirstFailing`; distinct dimensions carry
distinct reasons; at the first failing dimension it returns
allowed:false with the reason of exactly that dimension and leaves the
store unchanged.  Instantiated by the witness at identity-tpd usage
19950, limit 20000, estimate 100. -/
theorem admission_checks_in_fixed_precedence :
    (∀ d1 d2 : LimitDimension, dimensionReason d1 = dimensionReason d2 → d1 = d2) ∧
    ∀ (s : Store) (u : String) (est : Nat) (t : Time),
      ((checkAndIncrementLimits s u est t).1.allowed = true ↔
        specFirstFailing s u est t = none) ∧
      ∀ d : LimitDimension, specFirstFailing s u est t = some d →
        (checkAndIncrementLimits s u est t).1.allowed = false ∧
        (checkAndIncrementLimits s u est t).1.reason = some (dimensionReason d) ∧
        (checkAndIncrementLimits s u est t).2 = s := by
  refine ⟨fun d1 d2 => by cases d1 <;> cases d2 <;> decide, fun s u est t => ⟨?_, ?_⟩⟩
  · simp only [checkAndIncrementLimits, specFirstFailing]
    split_ifs <;> simp
  · intro d hd
    simp only [specFirstFailing] at hd
    simp only [checkAndIncrementLimits]
    split_ifs at hd ⊢ <;> simp_all <;> simp [← hd, dimensionReason]

/-- Witness for C1: identity u2 with identity-tpd usage 19950 and
estimate 100 trips the identity-tpd dimension, is rejected with the
identity-tpd reason, and the store is unchanged. -/
theorem admission_checks_in_fixed_precedence_witness :
    specFirstFailing c1Store "u2" 100 t0 = some LimitDimension.userTpd ∧
    (checkAndIncrementLimits c1Store "u2" 100 t0).1.allowed = false ∧
    (checkAndIncrementLimits c1Store "u2" 100 t0).1.reason =
      some "User tokens per day limit exceeded (Your App Quota)" ∧
    (checkAndIncrementLimits c1Store "u2" 100 t0).2 = c1Store := by
  have h := (admission_checks_in_fixed_precedence.2 c1Store "u2" 100 t0).2
    LimitDimension.userTpd (by decide)
  exact ⟨by decide, h.1, h.2.1, h.2.2⟩

/-! ## Claim C2 -/

/-- Any single admit call leaves every `user:tpd:` counter value
untouched (whether the call is allowed or rejected). -/
theorem admit_preserves_userTpd (s : Store) (u2 : String) (est : Nat) (t2 : Time)
    (u : String) (t : Time) :
    ((checkAndIncrementLimits s u2 est t2).2).val (userTpdKey u t) =
      s.val (userTpdKey u t) := by
  by_cases h : (checkAndIncrementLimits s u2 est t2).1.allowed = true
  · rw [(check_allowed_store s u2 est t2 h).2.2.2]
    rw [val_incrementCounter_other _ _ _ _ (Ne.symm (uRpd_ne_uTpd u2 t2 u t))]
    rw [val_incrementCounter_other _ _ _ _ (Ne.symm (gRpd_ne_uTpd t2 u t))]
    rw [val_incrementCounter_other _ _ _ _ (Ne.symm (gRpm_ne_uTpd t2 u t))]
  · have hf : (checkAndIncrementLimits s u2 est t2).1.allowed = false := by
      simpa using h
    rw [check_rejected_store s u2 est t2 hf]

/-- C2: an allowed admission adds exactly 1 to each of the three request
counters (global rpm, global rpd, identity rpd), leaves the three token
counters and every other key unchanged, and therefore any number of
admits without a record call keeps an identity tpd counter that started
at 0 at 0. -/
theorem admit_increments_only_request_counters :
    (∀ (s : Store) (u : String) (est : Nat) (t : Time),
      (checkAndIncrementLimits s u est t).1.allowed = true →
      getCounter (checkAndIncrementLimits s u est t).2 (globalRpmKey t) =
        getCounter s (globalRpmKey t) + 1 ∧
      getCounter (checkAndIncrementLimits s u est t).2 (globalRpdKey t) =
        getCounter s (globalRpdKey t) + 1 ∧
      getCounter (checkAndIncrementLimits s u est t).2 (userRpdKey u t) =
        getCounter s (userRpdKey u t) + 1 ∧
      getCounter (checkAndIncrementLimits s u est t).2 (globalTpmKey t) =
        getCounter s (globalTpmKey t) ∧
      getCounter (checkAndIncrementLimits s u est t).2 (globalTpdKey t) =
        getCounter s (globalTpdKey t) ∧
      getCounter (checkAndIncrementLimits s u est t).2 (userTpdKey u t) =
        getCounter s (userTpdKey u t) ∧
      ∀ k : String, k ≠ globalRpmKey t → k ≠ globalRpdKey t → k ≠ userRpdKey u t →
        ((checkAndIncrementLimits s u est t).2).val k = s.val k) ∧
    ∀ (s : Store) (ops : List (String × Nat × Time)) (u : String) (t : Time),
      getCounter s (userTpdKey u t) = 0 →
      getCounter (admitSeq s ops) (userTpdKey u t) = 0 := by
  constructor
  · intro s u est t h
    rw [(check_allowed_store s u est t h).2.2.2]
    refine ⟨?_, ?_, ?_, ?_, ?_, ?_, ?_⟩
    · rw [getCounter_incrementCounter_other _ _ _ _ (gRpm_ne_uRpd t u t),
        getCounter_incrementCounter_other _ _ _ _ (gRpm_ne_gRpd t t),
        getCounter_incrementCounter_self]
    · rw [getCounter_incrementCounter_other _ _ _ _ (gRpd_ne_uRpd t u t),
        getCounter_incrementCounter_self,
        getCounter_incrementCounter_other _ _ _ _ (Ne.symm (gRpm_ne_gRpd t t))]
    · rw [getCounter_incrementCounter_self,
        getCounter_incrementCounter_other _ _ _ _ (Ne.symm (gRpd_ne_uRpd t u t)),
        getCounter_incrementCounter_other _ _ _ _ (Ne.symm (gRpm_ne_uRpd t u t))]
    · rw [getCounter_incrementCounter_other _ _ _ _ (gTpm_ne_uRpd t u t),
        getCounter_incrementCounter_other _ _ _ _ (Ne.symm (gRpd_ne_gTpm t t)),
        getCounter_incrementCounter_other _ _ _ _ (Ne.symm (gRpm_ne_gTpm t t))]
    · rw [getCounter_incrementCounter_other _ _ _ _ (gTpd_ne_uRpd t u t),
        getCounter_incrementCounter_other _ _ _ _ (Ne.symm (gRpd_ne_gTpd t t)),
        getCounter_incrementCounter_other _ _ _ _ (Ne.symm (gRpm_ne_gTpd t t))]
    · rw [getCounter_incrementCounter_other _ _ _ _ (Ne.symm (uRpd_ne_uTpd u t u t)),
        getCounter_incrementCounter_other _ _ _ _ (Ne.symm (gRpd_ne_uTpd t u t)),
        getCounter_incrementCounter_other _ _ _ _ (Ne.symm (gRpm_ne_uTpd t u t))]
    · intro k h1 h2 h3
      rw [val_incrementCounter_other _ _ _ _ h3,
        val_incrementCounter_other _ _ _ _ h2,
        val_incrementCounter_other _ _ _ _ h1]
  · intro s ops u t h
    induction ops generalizing s with
    | nil => simpa [admitSeq] using h
    | cons op rest ih =>
      simp only [admitSeq]
      apply ih
      unfold getCounter at h ⊢
      rw [admit_preserves_userTpd]
      exact h

/-- Witness for C2: on the empty store an admit of 100 estimated tokens
for u1 is allowed, bumps global rpm to 1, does not create the identity
tpd counter, leaves an unrelated key untouched, and a one-admit sequence
keeps identity tpd usage at 0. -/
theorem admit_increments_only_request_counters_witness :
    (checkAndIncrementLimits Store.empty "u1" 100 t0).1.allowed = true ∧
    getCounter (checkAndIncrementLimits Store.empty "u1" 100 t0).2 (globalRpmKey t0) =
      getCounter Store.empty (globalRpmKey t0) + 1 ∧
    getCounter (checkAndIncrementLimits Store.empty "u1" 100 t0).2 (userTpdKey "u1" t0) =
      getCounter Store.empty (userTpdKey "u1" t0) ∧
    ((checkAndIncrementLimits Store.empty "u1" 100 t0).2).val (rewardTpdKey "u1" t0) =
      Store.empty.val (rewardTpdKey "u1" t0) ∧
    getCounter (admitSeq Store.empty [("u1", 100, t0)]) (userTpdKey "u1" t0) = 0 := by
  have h1 : (checkAndIncrementLimits Store.empty "u1" 100 t0).1.allowed = true := by decide
  have hmain := admit_increments_only_request_counters.1 Store.empty "u1" 100 t0 h1
  exact ⟨h1, hmain.1, hmain.2.2.2.2.2.1,
    hmain.2.2.2.2.2.2 (rewardTpdKey "u1" t0) (by decide) (by decide) (by decide),
    admit_increments_only_request_counters.2 Store.empty [("u1", 100, t0)] "u1" t0 (by decide)⟩

/-! ## Claim C6 -/

theorem getCounter_expire (s : Store) (key : String) (sec : Nat) (k : String) :
    getCounter (expire s key sec) k = getCounter s k := by
  unfold getCounter; rw [val_expire]

theorem ttl_expire_self (s : Store) (key : String) (sec : Nat)
    (h : (s.val key).isSome = true) : (expire s key sec).ttl key = some sec := by
  unfold expire; rw [if_pos h, ttl_setTtl, if_pos rfl]

/-- C6: `recordActualTokenUsage` adds the actual token count to exactly
the three token counters (global tpm, global tpd, identity tpd),
(re)applies TTLs 60 / 86400 / 86400 to them, leaves every other key
untouched, and reports success. -/
theorem record_adds_actual_tokens :
    ∀ (s : Store) (u : String) (n : Nat) (t : Time),
      (recordActualTokenUsage s u n t).1.success = true ∧
      getCounter (recordActualTokenUsage s u n t).2 (globalTpmKey t) =
        getCounter s (globalTpmKey t) + n ∧
      getCounter (recordActualTokenUsage s u n t).2 (globalTpdKey t) =
        getCounter s (globalTpdKey t) + n ∧
      getCounter (recordActualTokenUsage s u n t).2 (userTpdKey u t) =
        getCounter s (userTpdKey u t) + n ∧
      ((recordActualTokenUsage s u n t).2).ttl (globalTpmKey t) = some 60 ∧
      ((recordActualTokenUsage s u n t).2).ttl (globalTpdKey t) = some 86400 ∧
      ((recordActualTokenUsage s u n t).2).ttl (userTpdKey u t) = some 86400 ∧
      ∀ k : String, k ≠ globalTpmKey t → k ≠ globalTpdKey t → k ≠ userTpdKey u t →
        ((recordActualTokenUsage s u n t).2).val k = s.val k := by
  intro s u n t
  simp only [recordActualTokenUsage]
  refine ⟨trivial, ?_, ?_, ?_, ?_, ?_, ?_, ?_⟩
  · rw [getCounter_expire, getCounter_expire, getCounter_expire,
      getCounter_incrby_other _ _ _ _ (gTpm_ne_uTpd t u t),
      getCounter_incrby_other _ _ _ _ (gTpm_ne_gTpd t t),
      getCounter_incrby_self]
  · rw [getCounter_expire, getCounter_expire, getCounter_expire,
      getCounter_incrby_other _ _ _ _ (gTpd_ne_uTpd t u t),
      getCounter_incrby_self,
      getCounter_incrby_other _ _ _ _ (Ne.symm (gTpm_ne_gTpd t t))]
  · rw [getCounter_expire, getCounter_expire, getCounter_expire,
      getCounter_incrby_self,
      getCounter_incrby_other _ _ _ _ (Ne.symm (gTpd_ne_uTpd t u t)),
      getCounter_incrby_other _ _ _ _ (Ne.symm (gTpm_ne_uTpd t u t))]
  · rw [ttl_expire_other _ _ _ _ (gTpm_ne_uTpd t u t),
      ttl_expire_other _ _ _ _ (gTpm_ne_gTpd t t),
      ttl_expire_self]
    rw [val_incrby_other _ _ _ _ (gTpm_ne_uTpd t u t),
      val_incrby_other _ _ _ _ (gTpm_ne_gTpd t t),
      val_incrby_self]
    rfl
  · rw [ttl_expire_other _ _ _ _ (gTpd_ne_uTpd t u t), ttl_expire_self]
    rw [val_expire, val_incrby_other _ _ _ _ (gTpd_ne_uTpd t u t),
      val_incrby_self]
    rfl
  · rw [ttl_expire_self]
    rw [val_expire, val_expire, val_incrby_self]
    rfl
  · intro k h1 h2 h3
    rw [val_expire, val_expire, val_expire,
      val_incrby_other _ _ _ _ h3, val_incrby_other _ _ _ _ h2,
      val_incrby_other _ _ _ _ h1]

/-- Witness for C6: `record(u1, 87)` on fresh counters yields identity
tpd usage 87, TTLs 60/86400/86400, success, and leaves an unrelated key
absent. -/
theorem record_adds_actual_tokens_witness :
    (recordActualTokenUsage Store.empty "u1" 87 t0).1.success = true ∧
    getCounter (recordActualTokenUsage Store.empty "u1" 87 t0).2 (userTpdKey "u1" t0) = 87 ∧
    ((recordActualTokenUsage Store.empty "u1" 87 t0).2).ttl (globalTpmKey t0) = some 60 ∧
    ((recordActualTokenUsage Store.empty "u1" 87 t0).2).ttl (globalTpdKey t0) = some 86400 ∧
    ((recordActualTokenUsage Store.empty "u1" 87 t0).2).ttl (userTpdKey "u1" t0) = some 86400 ∧
    ((recordActualTokenUsage Store.empty "u1" 87 t0).2).val (globalRpmKey t0) =
      Store.empty.val (globalRpmKey t0) := by
  have h := record_adds_actual_tokens Store.empty "u1" 87 t0
  refine ⟨h.1, ?_, h.2.2.2.2.1, h.2.2.2.2.2.1, h.2.2.2.2.2.2.1,
    h.2.2.2.2.2.2.2 (globalRpmKey t0) (by decide) (by decide) (by decide)⟩
  rw [h.2.2.2.1]
  rfl

/-! ## Claim C9 -/

theorem snd_incrementCounter (s : Store) (key : String) (ttl : Nat) :
    (incrementCounter s key ttl).2 = getCounter s key + 1 := rfl

theorem ttl_incrementCounter_created (s : Store) (key : String) (ttl : Nat)
    (h : getCounter s key = 0) :
    ((incrementCounter s key ttl).1).ttl key = some ttl := by
  simp only [incrementCounter, h]
  rw [if_pos trivial, ttl_expire_self]
  rw [val_setVal, if_pos rfl]
  rfl

theorem ttl_incrementCounter_present (s : Store) (key : String) (ttl : Nat)
    (h : 1 ≤ getCounter s key) :
    ((incrementCounter s key ttl).1).ttl key = s.ttl key := by
  simp only [incrementCounter]
  rw [if_neg (by omega), ttl_setVal]

/-- C9: `incrementCounter` creates an absent key at 1 and sets its TTL on
that creating increment; an increment of an already-created key (stored
value at least 1) adds 1 and leaves the TTL untouched; `getCounter`
returns 0 for an absent (or expired, hence reaped) key and the stored
value otherwise. -/
theorem counter_store_contract :
    ∀ (s : Store) (key : String) (ttl : Nat),
      (s.val key = none →
        ((incrementCounter s key ttl).1).val key = some 1 ∧
        ((incrementCounter s key ttl).1).ttl key = some ttl ∧
        (incrementCounter s key ttl).2 = 1) ∧
      (∀ v : Nat, s.val key = some v → 1 ≤ v →
        ((incrementCounter s key ttl).1).val key = some (v + 1) ∧
        ((incrementCounter s key ttl).1).ttl key = s.ttl key ∧
        (incrementCounter s key ttl).2 = v + 1) ∧
      (s.val key = none → getCounter s key = 0) ∧
      (∀ v : Nat, s.val key = some v → getCounter s key = v) := by
  intro s key ttl
  refine ⟨?_, ?_, ?_, ?_⟩
  · intro h
    have hc : getCounter s key = 0 := by unfold getCounter; rw [h]; rfl
    refine ⟨?_, ttl_incrementCounter_created s key ttl hc, ?_⟩
    · rw [val_incrementCounter_self, hc]
    · rw [snd_incrementCounter, hc]
  · intro v h hv
    have hc : getCounter s key = v := by unfold getCounter; rw [h]; rfl
    refine ⟨?_, ttl_incrementCounter_present s key ttl (by omega), ?_⟩
    · rw [val_incrementCounter_self, hc]
    · rw [snd_incrementCounter, hc]
  · intro h; unfold getCounter; rw [h]; rfl
  · intro v h; unfold getCounter; rw [h]; rfl

/-- Witness for C9: incrementing an absent key creates it at 1 with the
given TTL; incrementing a key holding 2 yields 3 without touching its
TTL; reads return 0 and 2 respectively. -/
theorem counter_store_contract_witness :
    ((incrementCounter Store.empty "k" 60).1).val "k" = some 1 ∧
    ((incrementCounter Store.empty "k" 60).1).ttl "k" = some 60 ∧
    getCounter Store.empty "k" = 0 ∧
    ((incrementCounter (Store.setVal Store.empty "k" 2) "k" 60).1).val "k" = some 3 ∧
    ((incrementCounter (Store.setVal Store.empty "k" 2) "k" 60).1).ttl "k" =
      (Store.setVal Store.empty "k" 2).ttl "k" ∧
    getCounter (Store.setVal Store.empty "k" 2) "k" = 2 := by
  have h1 := (counter_store_contract Store.empty "k" 60).1 rfl
  have h2 := (counter_store_contract (Store.setVal Store.empty "k" 2) "k" 60).2.1 2
    (by decide) (by decide)
  have h3 := (counter_store_contract Store.empty "k" 60).2.2.1 rfl
  have h4 := (counter_store_contract (Store.setVal Store.empty "k" 2) "k" 60).2.2.2 2
    (by decide)
  exact ⟨h1.1, h1.2.1, h3, h2.1, h2.2.1, h4⟩

/-! ## Claim C7 -/

/-- A single admit call preserves the request-counter invariant: each
request counter is incremented only after its pre-increment value was
checked strictly below its limit, and rejection leaves the store
unchanged. -/
theorem reqInv_check (s : Store) (u : String) (est : Nat) (t : Time)
    (h : ReqInv s) : ReqInv ((checkAndIncrementLimits s u est t).2) := by
  by_cases ha : (checkAndIncrementLimits s u est t).1.allowed = true
  · obtain ⟨h1, h2, h3, hs⟩ := check_allowed_store s u est t ha
    rw [hs]
    refine ⟨?_, ?_, ?_⟩
    · intro m
      by_cases hk : ("global:rpm:" ++ m) = globalRpmKey t
      · rw [hk, getCounter_incrementCounter_other _ _ _ _ (gRpm_ne_uRpd t u t),
          getCounter_incrementCounter_other _ _ _ _ (gRpm_ne_gRpd t t),
          getCounter_incrementCounter_self]
        omega
      · have hn2 : ("global:rpm:" ++ m) ≠ globalRpdKey t := by
          rw [globalRpdKey]
          exact append_ne_append _ _ _ _ 9 (by decide) (by decide) (by decide)
        have hn3 : ("global:rpm:" ++ m) ≠ userRpdKey u t := by
          rw [userRpdKey_eq]
          exact append_ne_append _ _ _ _ 0 (by decide) (by decide) (by decide)
        rw [getCounter_incrementCounter_other _ _ _ _ hn3,
          getCounter_incrementCounter_other _ _ _ _ hn2,
          getCounter_incrementCounter_other _ _ _ _ hk]
        exact h.1 m
    · intro d
      by_cases hk : ("global:rpd:" ++ d) = globalRpdKey t
      · rw [hk, getCounter_incrementCounter_other _ _ _ _ (gRpd_ne_uRpd t u t),
          getCounter_incrementCounter_self,
          getCounter_incrementCounter_other _ _ _ _ (Ne.symm (gRpm_ne_gRpd t t))]
        omega
      · have hn1 : ("global:rpd:" ++ d) ≠ globalRpmKey t := by
          rw [globalRpmKey]
          exact append_ne_append _ _ _ _ 9 (by decide) (by decide) (by decide)
        have hn3 : ("global:rpd:" ++ d) ≠ userRpdKey u t := by
          rw [userRpdKey_eq]
          exact append_ne_append _ _ _ _ 0 (by decide) (by decide) (by decide)
        rw [getCounter_incrementCounter_other _ _ _ _ hn3,
          getCounter_incrementCounter_other _ _ _ _ hk,
          getCounter_incrementCounter_other _ _ _ _ hn1]
        exact h.2.1 d
    · intro r
      by_cases hk : ("user:rpd:" ++ r) = userRpdKey u t
      · rw [hk, getCounter_incrementCounter_self,
          getCounter_incrementCounter_other _ _ _ _ (Ne.symm (gRpd_ne_uRpd t u t)),
          getCounter_incrementCounter_other _ _ _ _ (Ne.symm (gRpm_ne_uRpd t u t))]
        omega
      · have hn1 : ("user:rpd:" ++ r) ≠ globalRpmKey t := by
          rw [globalRpmKey]
          exact append_ne_append _ _ _ _ 0 (by decide) (by decide) (by decide)
        have hn2 : ("user:rpd:" ++ r) ≠ globalRpdKey t := by
          rw [globalRpdKey]
          exact append_ne_append _ _ _ _ 0 (by decide) (by decide) (by decide)
        rw [getCounter_incrementCounter_other _ _ _ _ hk,
          getCounter_incrementCounter_other _ _ _ _ hn2,
          getCounter_incrementCounter_other _ _ _ _ hn1]
        exact h.2.2 r
  · have hf : (checkAndIncrementLimits s u est t).1.allowed = false := by simpa using ha
    rw [check_rejected_store s u est t hf]
    exact h

theorem reqInv_checkSeq (ops : List (String × Nat × Time)) (s : Store)
    (h : ReqInv s) : ReqInv (admitSeq s ops) := by
  induction ops generalizing s with
  | nil => simpa [admitSeq] using h
  | cons op rest ih =>
    simp only [admitSeq]
    exact ih _ (reqInv_check s op.1 op.2.1 op.2.2 h)

/-- C7: starting from empty counters, after any sequence of sequential
admit calls no request-count counter (global rpm, global rpd, or any
identity rpd) exceeds its configured limit. -/
theorem request_counters_never_exceed_limits :
    ∀ ops : List (String × Nat × Time), ReqInv (admitSeq Store.empty ops) := by
  intro ops
  refine reqInv_checkSeq ops Store.empty ⟨?_, ?_, ?_⟩ <;>
    intro x <;> simp [getCounter, Store.empty]

/-! ## Claim C10 -/

theorem gRpmKey_ns (t : Time) :
    globalRpmKey t = "global:" ++ ("rpm:" ++ minuteBucket t) := by
  rw [globalRpmKey, show ("global:rpm:" : String) = "global:" ++ "rpm:" from rfl,
    String.append_assoc]

theorem gRpdKey_ns (t : Time) :
    globalRpdKey t = "global:" ++ ("rpd:" ++ dayBucket t) := by
  rw [globalRpdKey, show ("global:rpd:" : String) = "global:" ++ "rpd:" from rfl,
    String.append_assoc]

theorem gTpmKey_ns (t : Time) :
    globalTpmKey t = "global:" ++ ("tpm:" ++ minuteBucket t) := by
  rw [globalTpmKey, show ("global:tpm:" : String) = "global:" ++ "tpm:" from rfl,
    String.append_assoc]

theorem gTpdKey_ns (t : Time) :
    globalTpdKey t = "global:" ++ ("tpd:" ++ dayBucket t) := by
  rw [globalTpdKey, show ("global:tpd:" : String) = "global:" ++ "tpd:" from rfl,
    String.append_assoc]

theorem uRpdKey_ns (u : String) (t : Time) :
    userRpdKey u t = "user:" ++ ("rpd:" ++ (u ++ (":" ++ dayBucket t))) := by
  rw [userRpdKey_eq, show ("user:rpd:" : String) = "user:" ++ "rpd:" from rfl,
    String.append_assoc]

theorem uTpdKey_ns (u : String) (t : Time) :
    userTpdKey u t = "user:" ++ ("tpd:" ++ (u ++ (":" ++ dayBucket t))) := by
  rw [userTpdKey_eq, show ("user:tpd:" : String) = "user:" ++ "tpd:" from rfl,
    String.append_assoc]

theorem quotaAgree_refl (s : Store) : quotaAgree s s := fun _ => ⟨rfl, rfl⟩

theorem quotaAgree_trans (a b c : Store) (h1 : quotaAgree a b) (h2 : quotaAgree b c) :
    quotaAgree a c := fun rest =>
  ⟨(h1 rest).1.trans (h2 rest).1, (h1 rest).2.trans (h2 rest).2⟩

theorem quotaAgree_getCounter_global (s1 s2 : Store) (h : quotaAgree s1 s2)
    (rest : String) :
    getCounter s1 ("global:" ++ rest) = getCounter s2 ("global:" ++ rest) := by
  unfold getCounter; rw [(h rest).1]

theorem quotaAgree_getCounter_user (s1 s2 : Store) (h : quotaAgree s1 s2)
    (rest : String) :
    getCounter s1 ("user:" ++ rest) = getCounter s2 ("user:" ++ rest) := by
  unfold getCounter; rw [(h rest).2]

/-- Incrementing the same key on two quota-agreeing stores (with equal
current values at that key) preserves quota agreement. -/
theorem quotaAgree_incr (s1 s2 : Store) (h : quotaAgree s1 s2) (key : String)
    (ttl : Nat) (hg : getCounter s1 key = getCounter s2 key) :
    quotaAgree ((incrementCounter s1 key ttl).1) ((incrementCounter s2 key ttl).1) := by
  intro rest
  constructor
  · by_cases hk : ("global:" ++ rest) = key
    · rw [hk, val_incrementCounter_self, val_incrementCounter_self, hg]
    · rw [val_incrementCounter_other _ _ _ _ hk, val_incrementCounter_other _ _ _ _ hk]
      exact (h rest).1
  · by_cases hk : ("user:" ++ rest) = key
    · rw [hk, val_incrementCounter_self, val_incrementCounter_self, hg]
    · rw [val_incrementCounter_other _ _ _ _ hk, val_incrementCounter_other _ _ _ _ hk]
      exact (h rest).2

/-- Admission returns the same result object on quota-agreeing stores and
preserves quota agreement. -/
theorem check_quotaAgree (s1 s2 : Store) (h : quotaAgree s1 s2) (u : String)
    (est : Nat) (t : Time) :
    (checkAndIncrementLimits s1 u est t).1 = (checkAndIncrementLimits s2 u est t).1 ∧
    quotaAgree (checkAndIncrementLimits s1 u est t).2
      (checkAndIncrementLimits s2 u est t).2 := by
  have e1 : getCounter s1 (globalRpmKey t) = getCounter s2 (globalRpmKey t) := by
    rw [gRpmKey_ns]; exact quotaAgree_getCounter_global s1 s2 h _
  have e2 : getCounter s1 (globalRpdKey t) = getCounter s2 (globalRpdKey t) := by
    rw [gRpdKey_ns]; exact quotaAgree_getCounter_global s1 s2 h _
  have e3 : getCounter s1 (globalTpmKey t) = getCounter s2 (globalTpmKey t) := by
    rw [gTpmKey_ns]; exact quotaAgree_getCounter_global s1 s2 h _
  have e4 : getCounter s1 (globalTpdKey t) = getCounter s2 (globalTpdKey t) := by
    rw [gTpdKey_ns]; exact quotaAgree_getCounter_global s1 s2 h _
  have e5 : getCounter s1 (userRpdKey u t) = getCounter s2 (userRpdKey u t) := by
    rw [uRpdKey_ns]; exact quotaAgree_getCounter_user s1 s2 h _
  have e6 : getCounter s1 (userTpdKey u t) = getCounter s2 (userTpdKey u t) := by
    rw [uTpdKey_ns]; exact quotaAgree_getCounter_user s1 s2 h _
  have hA1 : quotaAgree ((incrementCounter s1 (globalRpmKey t) 60).1)
      ((incrementCounter s2 (globalRpmKey t) 60).1) :=
    quotaAgree_incr s1 s2 h _ 60 e1
  have hA2 : quotaAgree
      ((incrementCounter ((incrementCounter s1 (globalRpmKey t) 60).1)
        (globalRpdKey t) 86400).1)
      ((incrementCounter ((incrementCounter s2 (globalRpmKey t) 60).1)
        (globalRpdKey t) 86400).1) := by
    refine quotaAgree_incr _ _ hA1 _ 86400 ?_
    rw [gRpdKey_ns]
    exact quotaAgree_getCounter_global _ _ hA1 _
  have hA3 : quotaAgree
      ((incrementCounter ((incrementCounter ((incrementCounter s1 (globalRpmKey t) 60).1)
        (globalRpdKey t) 86400).1) (userRpdKey u t) 86400).1)
      ((incrementCounter ((incrementCounter ((incrementCounter s2 (globalRpmKey t) 60).1)
        (globalRpdKey t) 86400).1) (userRpdKey u t) 86400).1) := by
    refine quotaAgree_incr _ _ hA2 _ 86400 ?_
    rw [uRpdKey_ns]
    exact quotaAgree_getCounter_user _ _ hA2 _
  simp only [checkAndIncrementLimits, e1, e2, e3, e4, e5, e6]
  split_ifs <;> exact ⟨rfl, by first | exact h | exact hA3⟩

/-- Reading the quota status gives equal answers on quota-agreeing
stores. -/
theorem status_quotaAgree (s1 s2 : Store) (h : quotaAgree s1 s2) (u : String)
    (t : Time) : getQuotaStatus s1 u t = getQuotaStatus s2 u t := by
  unfold getQuotaStatus
  rw [gRpmKey_ns, gRpdKey_ns, gTpmKey_ns, gTpdKey_ns, uRpdKey_ns, uTpdKey_ns,
    quotaAgree_getCounter_global s1 s2 h, quotaAgree_getCounter_global s1 s2 h,
    quotaAgree_getCounter_global s1 s2 h, quotaAgree_getCounter_global s1 s2 h,
    quotaAgree_getCounter_user s1 s2 h, quotaAgree_getCounter_user s1 s2 h]

/-- One ad-reward call only writes a `tpd:` or `rpd:` key, hence agrees
with the original store on the whole quota namespace. -/
theorem reward_quotaAgree (s : Store) (u mo rt : String) (amt : Nat) (t : Time) :
    quotaAgree ((incrementRewardQuota s u mo rt amt t).2) s := by
  unfold incrementRewardQuota
  split_ifs with h1 h2
  · show quotaAgree (incrby s (rewardTpdKey u t) amt) s
    intro rest
    constructor
    · rw [val_incrby_other]
      rw [rewardTpdKey_eq]
      exact append_ne_append _ _ _ _ 0 (by decide) (by decide) (by decide)
    · rw [val_incrby_other]
      rw [rewardTpdKey_eq]
      exact append_ne_append _ _ _ _ 0 (by decide) (by decide) (by decide)
  · show quotaAgree (incrby s (rewardRpdKey u t) amt) s
    intro rest
    constructor
    · rw [val_incrby_other]
      rw [rewardRpdKey_eq]
      exact append_ne_append _ _ _ _ 0 (by decide) (by decide) (by decide)
    · rw [val_incrby_other]
      rw [rewardRpdKey_eq]
      exact append_ne_append _ _ _ _ 0 (by decide) (by decide) (by decide)
  · exact quotaAgree_refl s

theorem rewardSeq_quotaAgree (rewards : List (String × String × String × Nat × Time))
    (s : Store) : quotaAgree (rewardSeq s rewards) s := by
  induction rewards generalizing s with
  | nil => exact quotaAgree_refl s
  | cons rw1 rest ih =>
    simp only [rewardSeq]
    exact quotaAgree_trans _ _ _ (ih _)
      (reward_quotaAgree s rw1.1 rw1.2.1 rw1.2.2.1 rw1.2.2.2.1 rw1.2.2.2.2)

theorem admitAll_quotaAgree (ops : List (String × Nat × Time)) (s1 s2 : Store)
    (h : quotaAgree s1 s2) :
    admitResults s1 ops = admitResults s2 ops ∧
    quotaAgree (admitSeq s1 ops) (admitSeq s2 ops) := by
  induction ops generalizing s1 s2 with
  | nil => exact ⟨rfl, h⟩
  | cons op rest ih =>
    have hc := check_quotaAgree s1 s2 h op.1 op.2.1 op.2.2
    obtain ⟨hr, hs⟩ := ih _ _ hc.2
    simp only [admitResults, admitSeq]
    exact ⟨by rw [hc.1, hr], hs⟩

/-- C10: the ad-reward operation writes only `tpd:`/`rpd:` keys, disjoint
from the `global:`/`user:` keys the ledger reads, so any sequence of
reward calls leaves the results of every subsequent admit call and the
reported quota status exactly as if no reward calls had been made. -/
theorem reward_calls_invisible_to_admission :
    ∀ (s : Store) (rewards : List (String × String × String × Nat × Time))
      (ops : List (String × Nat × Time)) (u : String) (t : Time),
      admitResults (rewardSeq s rewards) ops = admitResults s ops ∧
      getQuotaStatus (admitSeq (rewardSeq s rewards) ops) u t =
        getQuotaStatus (admitSeq s ops) u t := by
  intro s rws ops u t
  obtain ⟨hr, hs⟩ := admitAll_quotaAgree ops _ _ (rewardSeq_quotaAgree rws s)
  exact ⟨hr, status_quotaAgree _ _ hs u t⟩

/-! ## Claim C5 -/

theorem fallbackHoldActive_eq_false (fb : Option Nat) (now : Nat)
    (h : ∀ d, fb = some d → d ≤ now) : fallbackHoldActive fb now = false := by
  cases fb with
  | none => rfl
  | some d =>
    simp only [fallbackHoldActive, decide_eq_false_iff_not]
    exact Nat.not_lt.mpr (h d rfl)

theorem fallbackHoldActive_eq_true (d now : Nat) (h : now < d) :
    fallbackHoldActive (some d) now = true := by
  simp [fallbackHoldActive, h]

/-- C5: on a select call with no active fallback deadline, tripping
either fraction (strictly above the 0.70 threshold) sets the deadline to
now + 5 minutes and returns the degraded tier; otherwise with both
fractions below 0.50 the deadline is cleared; otherwise the deadline is
left as-is; in the two non-trip cases the caller-preferred (default:
primary) model is returned. -/
theorem selectModel_thresholds :
    ∀ (s : Store) (fb : Option Nat) (u : String) (t : Time) (now : Nat) (pref : String),
      (∀ d, fb = some d → d ≤ now) →
      ((((getQuotaStatus s u t).1.tpd : ℚ) / ((getQuotaStatus s u t).2.tpd : ℚ) >
          FALLBACK_THRESHOLD ∨
        ((getQuotaStatus s u t).1.rpm : ℚ) / ((getQuotaStatus s u t).2.rpm : ℚ) >
          FALLBACK_THRESHOLD) →
        selectModel s fb u t now pref = (MODELS_fallback, some (now + FALLBACK_DURATION_MS))) ∧
      (¬(((getQuotaStatus s u t).1.tpd : ℚ) / ((getQuotaStatus s u t).2.tpd : ℚ) >
          FALLBACK_THRESHOLD ∨
        ((getQuotaStatus s u t).1.rpm : ℚ) / ((getQuotaStatus s u t).2.rpm : ℚ) >
          FALLBACK_THRESHOLD) →
        (((getQuotaStatus s u t).1.tpd : ℚ) / ((getQuotaStatus s u t).2.tpd : ℚ) < 1 / 2 ∧
          ((getQuotaStatus s u t).1.rpm : ℚ) / ((getQuotaStatus s u t).2.rpm : ℚ) < 1 / 2) →
        selectModel s fb u t now pref =
          ((if pref = "" then MODELS_default else pref), none)) ∧
      (¬(((getQuotaStatus s u t).1.tpd : ℚ) / ((getQuotaStatus s u t).2.tpd : ℚ) >
          FALLBACK_THRESHOLD ∨
        ((getQuotaStatus s u t).1.rpm : ℚ) / ((getQuotaStatus s u t).2.rpm : ℚ) >
          FALLBACK_THRESHOLD) →
        ¬(((getQuotaStatus s u t).1.tpd : ℚ) / ((getQuotaStatus s u t).2.tpd : ℚ) < 1 / 2 ∧
          ((getQuotaStatus s u t).1.rpm : ℚ) / ((getQuotaStatus s u t).2.rpm : ℚ) < 1 / 2) →
        selectModel s fb u t now pref =
          ((if pref = "" then MODELS_default else pref), fb)) := by
  intro s fb u t now pref hNo
  have hHold := fallbackHoldActive_eq_false fb now hNo
  refine ⟨?_, ?_, ?_⟩
  · intro htrip
    simp only [selectModel, hHold]
    rw [if_neg Bool.false_ne_true, if_pos htrip]
  · intro hnt hrec
    simp only [selectModel, hHold]
    rw [if_neg Bool.false_ne_true, if_neg hnt, if_pos hrec]
  · intro hnt hnr
    simp only [selectModel, hHold]
    rw [if_neg Bool.false_ne_true, if_neg hnt, if_neg hnr]

/-- Witness for C5: global tpd usage 360001 of 500000 (72%) with no
stored deadline trips the threshold: degraded tier, deadline now + 5
minutes.  And at 60% usage (no trip, not under recovery): the preferred
default model is returned and the (absent) deadline is kept. -/
theorem selectModel_thresholds_witness :
    selectModel c5Store none "u1" t0 0 MODELS_default =
      (MODELS_fallback, some (0 + FALLBACK_DURATION_MS)) ∧
    selectModel c4Store none "u1" t0 0 MODELS_default =
      ((if MODELS_default = "" then MODELS_default else MODELS_default), none) := by
  have e1 : (getQuotaStatus c5Store "u1" t0).1.tpd = 360001 := by decide
  have e2 : (getQuotaStatus c5Store "u1" t0).2.tpd = 500000 := rfl
  have e3 : (getQuotaStatus c5Store "u1" t0).1.rpm = 0 := by decide
  have e4 : (getQuotaStatus c5Store "u1" t0).2.rpm = 30 := rfl
  have f1 : (getQuotaStatus c4Store "u1" t0).1.tpd = 300000 := by decide
  have f2 : (getQuotaStatus c4Store "u1" t0).2.tpd = 500000 := rfl
  have f3 : (getQuotaStatus c4Store "u1" t0).1.rpm = 0 := by decide
  have f4 : (getQuotaStatus c4Store "u1" t0).2.rpm = 30 := rfl
  constructor
  · refine (selectModel_thresholds c5Store none "u1" t0 0 MODELS_default
      (fun d hd => by cases hd)).1 ?_
    left
    rw [e1, e2]
    rw [FALLBACK_THRESHOLD]
    norm_num
  · refine (selectModel_thresholds c4Store none "u1" t0 0 MODELS_default
      (fun d hd => by cases hd)).2.2 ?_ ?_
    · rw [f1, f2, f3, f4, FALLBACK_THRESHOLD]
      norm_num
    · rw [f1, f2]
      norm_num

/-! ## Claim C4 -/

/-- C4 counterexample: the fallback deadline (1 ms) has expired at
now = 1000 ms, global tpd usage sits at 60% of its limit — not below the
0.50 recovery threshold — yet `selectModel` already returns the primary
model (and leaves the stale deadline in place).  The claim that after
cooldown expiry primary may be returned only once usage has dropped
below the recovery threshold is therefore false of the code. -/
theorem selectModel_hysteresis_counterexample :
    (1 : Nat) ≤ 1000 ∧
    ¬(((getQuotaStatus c4Store "u1" t0).1.tpd : ℚ) /
        ((getQuotaStatus c4Store "u1" t0).2.tpd : ℚ) < 1 / 2) ∧
    selectModel c4Store (some 1) "u1" t0 1000 MODELS_default =
      (MODELS_default, some 1) := by
  have f1 : (getQuotaStatus c4Store "u1" t0).1.tpd = 300000 := by decide
  have f2 : (getQuotaStatus c4Store "u1" t0).2.tpd = 500000 := rfl
  have f3 : (getQuotaStatus c4Store "u1" t0).1.rpm = 0 := by decide
  have f4 : (getQuotaStatus c4Store "u1" t0).2.rpm = 30 := rfl
  refine ⟨by norm_num, by rw [f1, f2]; norm_num, ?_⟩
  simp only [selectModel]
  rw [if_neg (by decide)]
  rw [if_neg (by rw [f1, f2, f3, f4, FALLBACK_THRESHOLD]; norm_num)]
  rw [if_neg (by rw [f1, f2]; norm_num)]
  rw [if_neg (by decide : ¬(MODELS_default = ""))]

/-- C4 amended: within the cooldown window every select call returns the
degraded tier regardless of the fractions and keeps the deadline; after
the deadline expires, select returns the preferred (primary) model
whenever neither fraction exceeds the trip threshold — usage below the
0.50 recovery threshold is required only for clearing the stored
deadline, not for returning primary. -/
theorem selectModel_hysteresis_amended :
    ∀ (s : Store) (d : Nat) (u : String) (t : Time) (now : Nat) (pref : String),
      (now < d →
        selectModel s (some d) u t now pref = (MODELS_fallback, some d)) ∧
      (d ≤ now →
        ¬(((getQuotaStatus s u t).1.tpd : ℚ) / ((getQuotaStatus s u t).2.tpd : ℚ) >
            FALLBACK_THRESHOLD ∨
          ((getQuotaStatus s u t).1.rpm : ℚ) / ((getQuotaStatus s u t).2.rpm : ℚ) >
            FALLBACK_THRESHOLD) →
        (selectModel s (some d) u t now pref).1 =
          (if pref = "" then MODELS_default else pref)) := by
  intro s d u t now pref
  constructor
  · intro h
    have hh := fallbackHoldActive_eq_true d now h
    simp only [selectModel, hh]
    rw [if_pos trivial]
  · intro hexp hnt
    have hh := fallbackHoldActive_eq_false (some d) now
      (fun d2 hd => by cases hd; exact hexp)
    simp only [selectModel, hh]
    rw [if_neg Bool.false_ne_true, if_neg hnt]
    split_ifs <;> rfl

/-- Witness for C4 (amended): with the deadline still 1000 ms away and
usage at 72% — far above every threshold — select still returns the
degraded tier and keeps the deadline; with the deadline expired and
usage at 60% select returns the default (primary) model. -/
theorem selectModel_hysteresis_amended_witness :
    (0 : Nat) < 1000 ∧
    selectModel c5Store (some 1000) "u1" t0 0 MODELS_default =
      (MODELS_fallback, some 1000) ∧
    (1 : Nat) ≤ 1000 ∧
    (selectModel c4Store (some 1) "u1" t0 1000 MODELS_default).1 =
      (if MODELS_default = "" then MODELS_default else MODELS_default) := by
  have f1 : (getQuotaStatus c4Store "u1" t0).1.tpd = 300000 := by decide
  have f2 : (getQuotaStatus c4Store "u1" t0).2.tpd = 500000 := rfl
  have f3 : (getQuotaStatus c4Store "u1" t0).1.rpm = 0 := by decide
  have f4 : (getQuotaStatus c4Store "u1" t0).2.rpm = 30 := rfl
  refine ⟨by norm_num,
    (selectModel_hysteresis_amended c5Store 1000 "u1" t0 0 MODELS_default).1 (by norm_num),
    by norm_num,
    (selectModel_hysteresis_amended c4Store 1 "u1" t0 1000 MODELS_default).2 (by norm_num) ?_⟩
  rw [f1, f2, f3, f4, FALLBACK_THRESHOLD]
  norm_num

/-! ## Claim C8 -/

theorem digitChar_ge_sixteen (m : Nat) (h : 16 ≤ m) : Nat.digitChar m = '*' := by
  unfold Nat.digitChar
  repeat rw [if_neg (by omega)]

theorem digitChar_ne_colon (m : Nat) : Nat.digitChar m ≠ ':' := by
  rcases Nat.lt_or_ge m 16 with h | h
  · interval_cases m <;> decide
  · rw [digitChar_ge_sixteen m h]; decide

theorem toDigitsCore_no_colon (b f : Nat) :
    ∀ (n : Nat) (ds : List Char), ':' ∉ ds → ':' ∉ Nat.toDigitsCore b f n ds := by
  induction f with
  | zero => intro n ds h; simpa [Nat.toDigitsCore] using h
  | succ f ih =>
    intro n ds h
    simp only [Nat.toDigitsCore]
    have hcons : ':' ∉ Nat.digitChar (n % b) :: ds := by
      intro hmem
      rcases List.mem_cons.mp hmem with h1 | h1
      · exact digitChar_ne_colon (n % b) h1.symm
      · exact h h1
    split
    · exact hcons
    · exact ih (n / b) (Nat.digitChar (n % b) :: ds) hcons

theorem repr_no_colon (n : Nat) : countColons (Nat.repr n) = 0 := by
  unfold countColons
  rw [List.count_eq_zero]
  show ':' ∉ (Nat.repr n).data
  have hd : (Nat.repr n).data = Nat.toDigits 10 n := rfl
  rw [hd]
  unfold Nat.toDigits
  exact toDigitsCore_no_colon 10 (n + 1) n [] (by simp)

theorem countColons_append (a b : String) :
    countColons (a ++ b) = countColons a + countColons b := by
  unfold countColons
  rw [String.data_append, List.count_append]

theorem minuteBucket_no_colon (t : Time) : countColons (minuteBucket t) = 0 := by
  unfold minuteBucket
  rw [countColons_append, countColons_append, countColons_append, countColons_append,
    countColons_append, countColons_append, countColons_append, countColons_append,
    repr_no_colon, repr_no_colon, repr_no_colon, repr_no_colon, repr_no_colon]
  decide

theorem dayBucket_no_colon (t : Time) : countColons (dayBucket t) = 0 := by
  unfold dayBucket
  rw [countColons_append, countColons_append, countColons_append, countColons_append,
    repr_no_colon, repr_no_colon, repr_no_colon]
  decide

/-- C8 counterexample: the global rpm key derived for 2024-01-01 10:30
UTC contains exactly two colons, so it cannot be written as the claimed
four colon-separated segments `scope:dimension::timeBucket` with an
empty identity segment (that form always contains three colons). -/
theorem key_convention_counterexample :
    countColons (globalRpmKey t0) = 2 ∧
    ¬∃ s1 s2 s4 : String, countColons s1 = 0 ∧ countColons s2 = 0 ∧
      countColons s4 = 0 ∧
      globalRpmKey t0 = s1 ++ ":" ++ s2 ++ ":" ++ "" ++ ":" ++ s4 := by
  have hc : countColons (globalRpmKey t0) = 2 := by decide
  refine ⟨hc, ?_⟩
  rintro ⟨s1, s2, s4, h1, h2, h4, heq⟩
  have hcount := congrArg countColons heq
  rw [hc, countColons_append, countColons_append, countColons_append,
    countColons_append, countColons_append, countColons_append,
    h1, h2, h4] at hcount
  have hcolon : countColons ":" = 1 := by decide
  have hemp : countColons "" = 0 := by decide
  rw [hcolon, hemp] at hcount
  omega

/-- C8 amended: global-scope keys follow `scope:dimension:timeBucket` —
three colon-separated segments with no identity segment at all (the
buckets are colon-free, so the keys contain exactly two colons) — while
the per-identity keys follow `user:dimension:identity:timeBucket`, four
segments (exactly three colons whenever the identity is colon-free). -/
theorem ledger_key_convention :
    ∀ (t : Time) (u : String),
      countColons (minuteBucket t) = 0 ∧
      countColons (dayBucket t) = 0 ∧
      globalRpmKey t = "global" ++ ":" ++ "rpm" ++ ":" ++ minuteBucket t ∧
      globalRpdKey t = "global" ++ ":" ++ "rpd" ++ ":" ++ dayBucket t ∧
      globalTpmKey t = "global" ++ ":" ++ "tpm" ++ ":" ++ minuteBucket t ∧
      globalTpdKey t = "global" ++ ":" ++ "tpd" ++ ":" ++ dayBucket t ∧
      userRpdKey u t = "user" ++ ":" ++ "rpd" ++ ":" ++ u ++ ":" ++ dayBucket t ∧
      userTpdKey u t = "user" ++ ":" ++ "tpd" ++ ":" ++ u ++ ":" ++ dayBucket t ∧
      countColons (globalRpmKey t) = 2 ∧
      countColons (globalRpdKey t) = 2 ∧
      countColons (globalTpmKey t) = 2 ∧
      countColons (globalTpdKey t) = 2 ∧
      (countColons u = 0 →
        countColons (userRpdKey u t) = 3 ∧ countColons (userTpdKey u t) = 3) := by
  intro t u
  have hm := minuteBucket_no_colon t
  have hd := dayBucket_no_colon t
  refine ⟨hm, hd, rfl, rfl, rfl, rfl, rfl, rfl, ?_, ?_, ?_, ?_, ?_⟩
  · rw [globalRpmKey, countColons_append, hm]; decide
  · rw [globalRpdKey, countColons_append, hd]; decide
  · rw [globalTpmKey, countColons_append, hm]; decide
  · rw [globalTpdKey, countColons_append, hd]; decide
  · intro hu
    constructor
    · rw [userRpdKey, countColons_append, countColons_append, countColons_append,
        hu, hd]
      decide
    · rw [userTpdKey, countColons_append, countColons_append, countColons_append,
        hu, hd]
      decide

/-- Witness for C8 (amended): for identity u1 at the concrete time, the
identity keys have three colons (four segments) and the global rpm key
two colons (three segments). -/
theorem ledger_key_convention_witness :
    countColons "u1" = 0 ∧
    countColons (userRpdKey "u1" t0) = 3 ∧
    countColons (userTpdKey "u1" t0) = 3 ∧
    countColons (globalRpmKey t0) = 2 := by
  have h := ledger_key_convention t0 "u1"
  have hu := h.2.2.2.2.2.2.2.2.2.2.2.2 (by decide)
  exact ⟨by decide, hu.1, hu.2, h.2.2.2.2.2.2.2.2.1⟩

/-! ## Claim C3 -/

theorem except_ok_bind {α β : Type} (a : α) (f : α → Except String β) :
    (Except.ok a >>= f) = f a := rfl

theorem except_error_bind {α β : Type} (e : String) (f : α → Except String β) :
    ((Except.error e : Except String α) >>= f) = Except.error e := rfl

theorem getCounterE_ok (s : EStore) (k : String) (hk : s.failing k = false) :
    getCounterE s k = Except.ok ((s.val k).getD 0) := by
  unfold getCounterE; rw [hk]; rfl

theorem getCounterE_error (s : EStore) (k : String) (hk : s.failing k = true) :
    getCounterE s k = Except.error "StoreUnavailable" := by
  unfold getCounterE; rw [hk]; rfl

/-- If any of the six admission reads errors, the whole (catch-free)
admission call errors. -/
theorem checkE_error_of_failing (s : EStore) (u : String) (est : Nat) (t : Time)
    (h : s.failing (globalRpmKey t) = true ∨ s.failing (globalRpdKey t) = true ∨
      s.failing (globalTpmKey t) = true ∨ s.failing (globalTpdKey t) = true ∨
      s.failing (userRpdKey u t) = true ∨ s.failing (userTpdKey u t) = true) :
    checkAndIncrementLimitsE s u est t = Except.error "StoreUnavailable" := by
  by_cases f1 : s.failing (globalRpmKey t) = true
  · simp only [checkAndIncrementLimitsE, getCounterE_error s _ f1, except_error_bind]
  · rw [Bool.not_eq_true] at f1
    by_cases f2 : s.failing (globalRpdKey t) = true
    · simp only [checkAndIncrementLimitsE, getCounterE_ok s _ f1,
        getCounterE_error s _ f2, except_ok_bind, except_error_bind]
    · rw [Bool.not_eq_true] at f2
      by_cases f3 : s.failing (globalTpmKey t) = true
      · simp only [checkAndIncrementLimitsE, getCounterE_ok s _ f1,
          getCounterE_ok s _ f2, getCounterE_error s _ f3,
          except_ok_bind, except_error_bind]
      · rw [Bool.not_eq_true] at f3
        by_cases f4 : s.failing (globalTpdKey t) = true
        · simp only [checkAndIncrementLimitsE, getCounterE_ok s _ f1,
            getCounterE_ok s _ f2, getCounterE_ok s _ f3,
            getCounterE_error s _ f4, except_ok_bind, except_error_bind]
        · rw [Bool.not_eq_true] at f4
          by_cases f5 : s.failing (userRpdKey u t) = true
          · simp only [checkAndIncrementLimitsE, getCounterE_ok s _ f1,
              getCounterE_ok s _ f2, getCounterE_ok s _ f3, getCounterE_ok s _ f4,
              getCounterE_error s _ f5, except_ok_bind, except_error_bind]
          · rw [Bool.not_eq_true] at f5
            by_cases f6 : s.failing (userTpdKey u t) = true
            · simp only [checkAndIncrementLimitsE, getCounterE_ok s _ f1,
                getCounterE_ok s _ f2, getCounterE_ok s _ f3, getCounterE_ok s _ f4,
                getCounterE_ok s _ f5, getCounterE_error s _ f6,
                except_ok_bind, except_error_bind]
            · rw [Bool.not_eq_true] at f6
              rw [f1, f2, f3, f4, f5, f6] at h
              simp at h

/-- C3 counterexample: with the store down (every key failing),
`checkAndIncrementLimitsE` does not return the claimed structured
`allowed:false` result — it propagates the error past its boundary,
returning no result object at all. -/
theorem store_failure_counterexample :
    checkAndIncrementLimitsE downEStore "u1" 100 t0 =
      Except.error "StoreUnavailable" ∧
    ∀ r : CheckResult × EStore,
      checkAndIncrementLimitsE downEStore "u1" 100 t0 ≠ Except.ok r := by
  have he : checkAndIncrementLimitsE downEStore "u1" 100 t0 =
      Except.error "StoreUnavailable" :=
    checkE_error_of_failing downEStore "u1" 100 t0 (Or.inl rfl)
  refine ⟨he, fun r hr => ?_⟩
  rw [he] at hr
  simp at hr

/-- C3 amended: if the store read for any of the six admission counters
fails, `checkAndIncrementLimitsE` errors (it never produces
allowed:true, nor any structured result), and the try/catch in its
caller `routeModelRequest` turns the error into a failed request — a
store failure is never treated as quota being available. -/
theorem store_failure_fails_closed :
    ∀ (s : EStore) (u : String) (est : Nat) (t : Time),
      (s.failing (globalRpmKey t) = true ∨ s.failing (globalRpdKey t) = true ∨
        s.failing (globalTpmKey t) = true ∨ s.failing (globalTpdKey t) = true ∨
        s.failing (userRpdKey u t) = true ∨ s.failing (userTpdKey u t) = true) →
      admissionReturnedOk (checkAndIncrementLimitsE s u est t) = false ∧
      routeAdmissionOutcome (checkAndIncrementLimitsE s u est t) = false := by
  intro s u est t h
  rw [checkE_error_of_failing s u est t h]
  exact ⟨rfl, rfl⟩

/-- Witness for C3 (amended): with the store down, admission returns no
ok result and the router-level outcome is a failed request. -/
theorem store_failure_fails_closed_witness :
    admissionReturnedOk (checkAndIncrementLimitsE downEStore "u1" 100 t0) = false ∧
    routeAdmissionOutcome (checkAndIncrementLimitsE downEStore "u1" 100 t0) = false :=
  store_failure_fails_closed downEStore "u1" 100 t0 (Or.inl rfl)

end AiNotes
